import Mathlib

/-!
Shallow embedding of `gradio/inputs.py` (input-component library: preprocessing
and the interpretation subsystem), together with theorems settling the claims
about it.

Modelling conventions:
* Python floats are modelled as `ℚ` (all arithmetic in the interpretation
  subsystem is exact: sums, differences, scalar products, divisions).
* Python lists are Lean `List`s; `list.insert(i, v)` is `pyInsert` (which
  clamps the index like Python), `str.split(sep)` is `pySplit` (Python
  semantics for a non-empty separator: split at every occurrence, keeping
  empty pieces), `list.remove(v)` / `list.index(v)` are `List.erase` /
  `List.indexOf?` guarded by membership (Python raises `ValueError` when the
  value is absent).
* Fallible Python code is embedded in `Except String`; the error string names
  the Python exception.  A Python method that mutates a caller-owned list is
  embedded as a function returning both its return value and the caller's
  list as it stands after the call (in CPython both are the same object).
* Opaque collaborators (base-64 decode, image resize, wav codec, mfcc) are
  not modelled; where a method only threads a value through them, the value
  is kept symbolic (see the doc comment of each definition).
-/

/-- Python `list.insert(n, a)`: inserts before position `n`, clamping `n` to
the list length (insertion past the end appends). -/
def pyInsert (n : ℕ) (a : α) (l : List α) : List α :=
  l.take n ++ a :: l.drop n

/-- Auxiliary recursion for `pySplit`, structural in a fuel argument so that
it evaluates by kernel reduction.  `tok` is the current token, reversed. -/
def pySplitAux (sep : List Char) : ℕ → List Char → List Char → List (List Char)
  | 0, s, tok => [tok.reverse ++ s]
  | fuel+1, s, tok =>
    match s with
    | [] => [tok.reverse]
    | c :: rest =>
      if sep.isPrefixOf s then
        tok.reverse :: pySplitAux sep fuel (s.drop sep.length) []
      else
        pySplitAux sep fuel rest (c :: tok)

/-- Python `s.split(sep)` for a non-empty separator `sep`: cut at every
non-overlapping occurrence of `sep`, scanning left to right, keeping empty
pieces (Python raises `ValueError` on an empty separator, so that case is
outside the modelled domain). -/
def pySplit (s sep : String) : List String :=
  (pySplitAux sep.data (s.data.length + 1) s.data []).map String.mk

/-- Native value produced by `Textbox.preprocess`: the raw string for type
"str", or the string handed to Python `float()` for type "number" (the
numeric parse is an opaque collaborator, kept symbolic). -/
inductive TextNative where
  | str (s : String)
  | number (s : String)
deriving DecidableEq

/-- Embeds `Textbox.preprocess`: dispatch on the `type` flag, raising
`ValueError` on anything other than "str" or "number". -/
def Textbox.preprocess (type : String) (x : String) : Except String TextNative :=
  if type = "str" then .ok (.str x)
  else if type = "number" then .ok (.number x)
  else .error ("Unknown type: " ++ type ++ ". Please choose from: str, number.")

/-- Embeds `Textbox.get_interpretation_neighbors`: split `x` into tokens on
the configured separator; one neighbor per token, with that token popped
(replacement `None`) or substituted (replacement set); returns the neighbor
strings, the token list (the auxiliary payload), and `by_removal = true`. -/
def Textbox.get_interpretation_neighbors (separator : String)
    (replacement : Option String) (x : String) :
    List String × List String × Bool :=
  let tokens := pySplit x separator
  ((List.range tokens.length).map (fun index =>
    match replacement with
    | none => String.intercalate separator (tokens.eraseIdx index)
    | some r => String.intercalate separator (tokens.set index r)),
   tokens, true)

/-- Embeds `Textbox.get_interpretation_scores`: pair each token with its
score and follow it with the separator paired with score 0.  The `x` and
`neighbors` parameters of the Python method are unused by its body. -/
def Textbox.get_interpretation_scores (separator : String) (x : String)
    (neighbors : List String) (scores : List ℚ) (tokens : List String) :
    List (String × ℚ) :=
  (tokens.zip scores).flatMap (fun p => [(p.1, p.2), (separator, 0)])

/-- Embeds `Number.get_interpretation_neighbors`: `steps` values below and
`steps` above `x`, spaced by `delta` (scaled by `x / 100` for delta type
"percent").  An unrecognized delta type leaves the local `delta` unbound in
the Python source (`UnboundLocalError`), embedded as `none`.  The source also
returns an empty auxiliary payload and `by_removal = False`. -/
def Number.get_interpretation_neighbors (steps : ℕ) (delta : ℚ)
    (delta_type : String) (x : ℚ) : Option (List ℚ × Bool) :=
  if delta_type = "percent" then
    some (((List.range steps).map (fun i => x + ((i : ℚ) - steps) * (1 * delta * x / 100)) ++
           (List.range steps).map (fun i => x + ((i : ℚ) + 1) * (1 * delta * x / 100))), false)
  else if delta_type = "absolute" then
    some (((List.range steps).map (fun i => x + ((i : ℚ) - steps) * delta) ++
           (List.range steps).map (fun i => x + ((i : ℚ) + 1) * delta)), false)
  else none

/-- Embeds `Number.get_interpretation_scores`: zip neighbors with scores and
insert the original value with a null score at position `len / 2` (Python
`int(len(interpretation) / 2)`, i.e. floor division). -/
def Number.get_interpretation_scores (x : ℚ) (neighbors : List ℚ)
    (scores : List ℚ) : List (ℚ × Option ℚ) :=
  let interpretation_pairs := (neighbors.zip scores).map (fun p => (p.1, some p.2))
  pyInsert (interpretation_pairs.length / 2) (x, none) interpretation_pairs

/-- Embeds `CheckboxGroup.get_interpretation_neighbors`: one neighbor per
declared choice, toggling that choice in the selection `x` (first occurrence
removed when present, appended when absent); `by_removal = false`. -/
def CheckboxGroup.get_interpretation_neighbors (choices : List String)
    (x : List String) : List (List String) × Bool :=
  (choices.map (fun choice => if choice ∈ x then x.erase choice else x ++ [choice]),
   false)

/-- Embeds `CheckboxGroup.get_interpretation_scores`: zip declared choices
with scores; a choice present in `x` yields the pair `[score, None]`, an
absent choice yields `[None, score]` (pairs are modelled as
`Option ℚ × Option ℚ`, `none` standing for Python `None`).  The `neighbors`
parameter of the Python method is unused by its body. -/
def CheckboxGroup.get_interpretation_scores (choices : List String)
    (x : List String) (neighbors : List (List String)) (scores : List ℚ) :
    List (Option ℚ × Option ℚ) :=
  (choices.zip scores).map (fun p =>
    if p.1 ∈ x then (some p.2, none) else (none, some p.2))

/-- Modelled from the spec sentence for claim C3 (refinement comparison
only, not from the source): pairs of the form
`(score_if_selected, score_if_unselected)` where the slot matching the
choice's actual membership in `x` is null and the other slot holds that
choice's neighbor score. -/
def CheckboxGroup.claimed_scores (choices : List String) (x : List String)
    (scores : List ℚ) : List (Option ℚ × Option ℚ) :=
  (choices.zip scores).map (fun p =>
    if p.1 ∈ x then (none, some p.2) else (some p.2, none))

/-- Embeds `CheckboxGroup.embed`: for type "value", the membership vector of
each declared choice in `x`; for type "index", the source evaluates
`range(len(choices))` where the bare name `choices` is undefined (only
`self.choices` exists), so Python raises `NameError` before anything is
returned; any other type raises `ValueError`. -/
def CheckboxGroup.embed (choices : List String) (type : String)
    (x : List String) : Except String (List Bool) :=
  if type = "value" then .ok (choices.map (fun choice => decide (choice ∈ x)))
  else if type = "index" then .error "NameError: name choices is not defined"
  else .error ("Unknown type: " ++ type ++ ". Please choose from: value, index.")

/-- Embeds `Radio.preprocess`: type "value" returns the selected string;
type "index" returns `choices.index(x)` (raising `ValueError` when `x` is
not a declared choice); any other type raises `ValueError`. -/
def Radio.preprocess (choices : List String) (type : String) (x : String) :
    Except String (String ⊕ ℕ) :=
  if type = "value" then .ok (.inl x)
  else if type = "index" then
    match choices.indexOf? x with
    | some i => .ok (.inr i)
    | none => .error "ValueError: x is not in list"
  else .error ("Unknown type: " ++ type ++ ". Please choose from: value, index.")

/-- Embeds `Radio.get_interpretation_neighbors`: copy the declared choices
and `list.remove` the selected one (first occurrence; `ValueError` when `x`
is not among the choices); `by_removal = false`. -/
def Radio.get_interpretation_neighbors (choices : List String) (x : String) :
    Except String (List String × Bool) :=
  if x ∈ choices then .ok (choices.erase x, false)
  else .error "ValueError: list.remove(x): x not in list"

/-- Embeds `Radio.get_interpretation_scores`.  The Python body runs
`scores.insert(self.choices.index(x), None)` — an in-place mutation of the
caller-supplied list — and returns that same list object.  The embedding
returns the pair (return value, caller's `scores` list as it stands after
the call); in CPython both components are one and the same object.  Score
entries are `Option ℚ` so the inserted Python `None` can be represented;
the caller's original entries are `some` values.  `choices.index(x)` raises
`ValueError` when `x` is absent.  The `neighbors` parameter of the Python
method is unused by its body. -/
def Radio.get_interpretation_scores_call (choices : List String) (x : String)
    (neighbors : List String) (scores : List (Option ℚ)) :
    Except String (List (Option ℚ) × List (Option ℚ)) :=
  match choices.indexOf? x with
  | some i => .ok (pyInsert i none scores, pyInsert i none scores)
  | none => .error "ValueError: x is not in list"

/-- Embeds `Radio.embed`: for type "value", the one-hot vector comparing
each declared choice with `x`; for type "index", the source evaluates
`range(len(choices))` where the bare name `choices` is undefined (only
`self.choices` exists), so Python raises `NameError`; any other type raises
`ValueError`. -/
def Radio.embed (choices : List String) (type : String) (x : String) :
    Except String (List Bool) :=
  if type = "value" then .ok (choices.map (fun choice => choice == x))
  else if type = "index" then .error "NameError: name choices is not defined"
  else .error ("Unknown type: " ++ type ++ ". Please choose from: value, index.")

/-- Embeds `Dropdown.preprocess` (the class body is textually identical to
`Radio.preprocess`). -/
def Dropdown.preprocess (choices : List String) (type : String) (x : String) :
    Except String (String ⊕ ℕ) :=
  if type = "value" then .ok (.inl x)
  else if type = "index" then
    match choices.indexOf? x with
    | some i => .ok (.inr i)
    | none => .error "ValueError: x is not in list"
  else .error ("Unknown type: " ++ type ++ ". Please choose from: value, index.")

/-- Embeds `Dropdown.get_interpretation_neighbors` (textually identical to
`Radio.get_interpretation_neighbors`). -/
def Dropdown.get_interpretation_neighbors (choices : List String) (x : String) :
    Except String (List String × Bool) :=
  if x ∈ choices then .ok (choices.erase x, false)
  else .error "ValueError: list.remove(x): x not in list"

/-- Embeds `Dropdown.get_interpretation_scores` under the same mutation
convention as `Radio.get_interpretation_scores_call` (the class body is
textually identical to Radio's). -/
def Dropdown.get_interpretation_scores_call (choices : List String) (x : String)
    (neighbors : List String) (scores : List (Option ℚ)) :
    Except String (List (Option ℚ) × List (Option ℚ)) :=
  match choices.indexOf? x with
  | some i => .ok (pyInsert i none scores, pyInsert i none scores)
  | none => .error "ValueError: x is not in list"

/-- Embeds `Dropdown.embed` (textually identical to `Radio.embed`,
including the undefined `choices` reference in the "index" branch). -/
def Dropdown.embed (choices : List String) (type : String) (x : String) :
    Except String (List Bool) :=
  if type = "value" then .ok (choices.map (fun choice => choice == x))
  else if type = "index" then .error "NameError: name choices is not defined"
  else .error ("Unknown type: " ++ type ++ ". Please choose from: value, index.")

/-- Zero grid of `h` rows by `w` columns (numpy `zeros((h, w))`). -/
def gridZero (h w : ℕ) : List (List ℚ) :=
  List.replicate h (List.replicate w 0)

/-- One step of the accumulation loop in `Image.get_interpretation_scores`:
numpy `output_scores += score * mask` for a boolean `mask` (a masked entry
gains `score`, any other entry gains 0).  Grids and masks are zipped
pointwise; numpy requires equal shapes, so unequal shapes are outside the
modelled domain. -/
def gridAddScaled (g : List (List ℚ)) (score : ℚ) (mask : List (List Bool)) :
    List (List ℚ) :=
  (g.zip mask).map (fun rows =>
    (rows.1.zip rows.2).map (fun q => q.1 + (if q.2 then score else 0)))

/-- Accumulated grid of `Image.get_interpretation_scores`: starting from the
zero grid of the decoded image's height by width, add `score * mask` for
every (score, mask) pair in order. -/
def Image.accumulate (scores : List ℚ) (masks : List (List (List Bool)))
    (h w : ℕ) : List (List ℚ) :=
  (scores.zip masks).foldl (fun g p => gridAddScaled g p.1 p.2) (gridZero h w)

/-- Numpy `np.max` over the entries of a list (numpy raises on an empty
array, so the empty case is outside the modelled domain; the embedding seeds
the fold with the first entry). -/
def npMax (l : List ℚ) : ℚ := l.foldl max (l.headD 0)

/-- Numpy `np.min` over the entries of a list (same domain remark as
`npMax`). -/
def npMin (l : List ℚ) : ℚ := l.foldl min (l.headD 0)

/-- Min-max rescaling step of `Image.get_interpretation_scores`:
`(output_scores - min_val) / (max_val - min_val)` applied entrywise. -/
def rescaleGrid (g : List (List ℚ)) : List (List ℚ) :=
  g.map (fun row => row.map (fun v => (v - npMin g.flatten) / (npMax g.flatten - npMin g.flatten)))

/-- Embeds `Image.get_interpretation_scores`: accumulate `score * mask` into
an `h` by `w` grid, then min-max rescale exactly when the grid's maximum
exceeds zero.  The base-64 decode and resize of `x` are opaque collaborators;
the embedding takes the decoded image's height `h` and width `w` directly. -/
def Image.get_interpretation_scores (scores : List ℚ)
    (masks : List (List (List Bool))) (h w : ℕ) : List (List ℚ) :=
  let acc := Image.accumulate scores masks h w
  if 0 < npMax acc.flatten then rescaleGrid acc else acc

/-- Native value produced by `Audio.preprocess`, tagged by branch; the
base-64 decode, wav read and mfcc extraction are opaque collaborators, so
each constructor keeps the raw input symbolic. -/
inductive AudioNative where
  | file (x : String)
  | numpy (x : String)
  | mfcc (x : String)
deriving DecidableEq

/-- Embeds `Audio.preprocess`: dispatch on the `type` flag.  The Python
source has no `else` branch: when `type` matches none of "file", "numpy",
"mfcc", control falls off the end of the function and Python returns `None`
— embedded as `.ok none`, an ordinary return, not an error. -/
def Audio.preprocess (type : String) (x : String) :
    Except String (Option AudioNative) :=
  if type = "file" then .ok (some (.file x))
  else if type = "numpy" then .ok (some (.numpy x))
  else if type = "mfcc" then .ok (some (.mfcc x))
  else .ok none

/-- Dataframe cell, per the three dtype branches the source distinguishes
(`is_bool_dtype`, `is_numeric_dtype`, `is_string_dtype`). -/
inductive Cell where
  | bool (b : Bool)
  | num (q : ℚ)
  | str (s : String)
deriving DecidableEq

/-- Embeds the dtype dispatch of `Dataframe.get_interpretation_neighbors`
on the scalar `x.iloc[i, j]`.  The pandas predicates `is_bool_dtype`,
`is_numeric_dtype` and `is_string_dtype` receive that scalar, and they test
an array-or-dtype: they read a `.dtype` attribute when the value carries
one, and otherwise try `pandas_dtype(value)`, which raises `TypeError` on an
arbitrary Python object, making the predicate return False.  A cell of a
homogeneous boolean column reaches the code as `numpy.bool_` (dtype bool),
so the first branch fires and the cell is complemented; a cell of a
homogeneous numeric column reaches it as a numpy numeric scalar, so the
second branch fires and the cell is zeroed; a cell of an object-dtype
column — any column containing a string, or mixing kinds — reaches it as a
plain Python object, all three predicates return False, no branch fires,
and the cell is left unchanged.  In particular the `is_string_dtype` branch
(write the empty string) is unreachable: strings only ever live in object
columns. -/
def blankScalar (column : List Cell) (scalar : Cell) : Cell :=
  if column.all (fun c => match c with | .bool _ => true | _ => false) then
    match scalar with
    | .bool b => .bool (!b)
    | c => c
  else if column.all (fun c => match c with | .num _ => true | _ => false) then
    .num 0
  else scalar

/-- Embeds `Dataframe.get_interpretation_neighbors`: for every cell (i, j)
in row-major order (rows outer, columns inner), one neighbor equal to the
original table except that its cell is replaced by `blankScalar` of column j
and the cell — complemented in a homogeneous boolean column, zeroed in a
homogeneous numeric column, unchanged in an object-dtype column; also
returns the table's (rows, cols) shape (the auxiliary payload) and
`by_removal = true`.  The table is assumed rectangular (pandas
`DataFrame.shape` on the nested list); the column count is read off the
first row. -/
def Dataframe.get_interpretation_neighbors (x : List (List Cell)) :
    List (List (List Cell)) × (ℕ × ℕ) × Bool :=
  let rows := x.length
  let cols := (x.headD []).length
  ((List.range rows).flatMap (fun i =>
    (List.range cols).map (fun j =>
      x.set i ((x.getD i []).set j
        (blankScalar (x.map (fun row => row.getD j (.str "")))
          ((x.getD i []).getD j (.str "")))))),
   (rows, cols), true)

/-- Embeds `Dataframe.get_interpretation_scores`: numpy
`array(scores).reshape(shape).tolist()`, i.e. the flat score list laid out
row-major into a `shape.1` by `shape.2` grid (numpy raises when the length
does not equal the product, so that case is outside the modelled domain). -/
def Dataframe.get_interpretation_scores (scores : List ℚ) (shape : ℕ × ℕ) :
    List (List ℚ) :=
  (List.range shape.1).map (fun i =>
    (List.range shape.2).map (fun j => scores.getD (shape.2 * i + j) 0))

/-- Interpretation hyperparameters of a `Textbox` instance; `none` models a
field never assigned. -/
structure Textbox.State where
  interpretation_separator : Option String
  interpretation_replacement : Option (Option String)

/-- Embeds `Textbox.interpret(separator, replacement)`: stores both
hyperparameters on the instance. -/
def Textbox.interpret (separator : String) (replacement : Option String)
    (s : Textbox.State) : Textbox.State :=
  { s with interpretation_separator := some separator,
           interpretation_replacement := some replacement }

/-- Interpretation state of a `Textbox` immediately after construction:
`InputComponent.__init__` calls `self.interpret()` with no arguments, which
dispatches to `Textbox.interpret` with its declared defaults
(separator " ", replacement None). -/
def Textbox.construct : Textbox.State :=
  Textbox.interpret " " none ⟨none, none⟩

/-- Interpretation hyperparameters of a `Number` instance. -/
structure Number.State where
  interpretation_steps : Option ℕ
  interpretation_delta : Option ℚ
  interpretation_delta_type : Option String

/-- Embeds `Number.interpret(steps, delta, delta_type)`. -/
def Number.interpret (steps : ℕ) (delta : ℚ) (delta_type : String)
    (s : Number.State) : Number.State :=
  { s with interpretation_steps := some steps,
           interpretation_delta := some delta,
           interpretation_delta_type := some delta_type }

/-- Interpretation state of a `Number` immediately after construction: the
base constructor calls `self.interpret()`, selecting the declared defaults
(steps 3, delta 1, delta type "percent"). -/
def Number.construct : Number.State :=
  Number.interpret 3 1 "percent" ⟨none, none, none⟩

/-- Interpretation hyperparameters of a `Slider` instance. -/
structure Slider.State where
  interpretation_steps : Option ℕ

/-- Embeds `Slider.interpret(steps)`. -/
def Slider.interpret (steps : ℕ) (s : Slider.State) : Slider.State :=
  { s with interpretation_steps := some steps }

/-- Interpretation state of a `Slider` immediately after construction
(declared default: steps 8). -/
def Slider.construct : Slider.State :=
  Slider.interpret 8 ⟨none⟩

/-- Interpretation hyperparameters of an `Image` instance. -/
structure Image.State where
  interpretation_segments : Option ℕ

/-- Embeds `Image.interpret(segments)`. -/
def Image.interpret (segments : ℕ) (s : Image.State) : Image.State :=
  { s with interpretation_segments := some segments }

/-- Interpretation state of an `Image` immediately after construction
(declared default: segments 16). -/
def Image.construct : Image.State :=
  Image.interpret 16 ⟨none⟩

/-- Interpretation hyperparameters of an `Audio` instance. -/
structure Audio.State where
  interpretation_segments : Option ℕ

/-- Embeds `Audio.interpret(segments)`. -/
def Audio.interpret (segments : ℕ) (s : Audio.State) : Audio.State :=
  { s with interpretation_segments := some segments }

/-- Interpretation state of an `Audio` immediately after construction
(declared default: segments 8). -/
def Audio.construct : Audio.State :=
  Audio.interpret 8 ⟨none⟩

/-- Length of a Python-style insertion: inserting always grows the list by
exactly one entry (Python clamps the index rather than failing). -/
theorem pyInsert_length (n : ℕ) (a : α) (l : List α) :
    (pyInsert n a l).length = l.length + 1 := by
  simp [pyInsert]
  omega

/-- Inserting never returns the original list (the lengths differ). -/
theorem pyInsert_ne (n : ℕ) (a : α) (l : List α) : pyInsert n a l ≠ l := by
  intro h
  have := congrArg List.length h
  rw [pyInsert_length] at this
  omega

/-- C2: an Audio component with a `type` flag outside the documented set
{"file", "numpy", "mfcc"} does not fail in `preprocess`: the Python body has
no else branch, so the call returns `None` for every input — contradicting
the claimed invalid-configuration error.  By contrast, `Textbox.preprocess`
does raise `ValueError` on an unknown type flag. -/
theorem c2_audio_preprocess_falls_through (x : String) :
    Audio.preprocess "wav" x = Except.ok none ∧
      (Textbox.preprocess "wav" x).isOk = false := by
  constructor <;> rfl

/-- C6: a Number component with steps 3, delta 10, delta type "absolute" and
input 50 yields exactly the neighbors [20, 30, 40, 60, 70, 80] in that
order, and for any six scores the scored sequence has length 7 with the
original value 50 carrying a null score at index 3. -/
theorem c6_number_neighbors_and_scores :
    Number.get_interpretation_neighbors 3 10 "absolute" 50 =
      some ([20, 30, 40, 60, 70, 80], false) ∧
    ∀ s1 s2 s3 s4 s5 s6 : ℚ,
      (Number.get_interpretation_scores 50 [20, 30, 40, 60, 70, 80]
          [s1, s2, s3, s4, s5, s6]).length = 7 ∧
      (Number.get_interpretation_scores 50 [20, 30, 40, 60, 70, 80]
          [s1, s2, s3, s4, s5, s6]).getD 3 (0, none) = (50, none) := by
  refine ⟨?_, ?_⟩
  · norm_num [Number.get_interpretation_neighbors, List.range_succ,
      show ("absolute" : String) ≠ "percent" from by decide]
  · intro s1 s2 s3 s4 s5 s6
    constructor <;> simp [Number.get_interpretation_scores, pyInsert]

/-- C8: with the "index" type flag, the embed methods of CheckboxGroup and
Radio reference the undefined bare name `choices` (only `self.choices`
exists), so they fail with `NameError` on every input instead of returning
the index-based membership vector. -/
theorem c8_embed_index_always_fails (choices : List String) (x : List String)
    (y : String) :
    CheckboxGroup.embed choices "index" x =
      Except.error "NameError: name choices is not defined" ∧
    Radio.embed choices "index" y =
      Except.error "NameError: name choices is not defined" := by
  constructor <;> rfl

/-- C9: Radio and Dropdown with the same declared choices and type flag are
behaviorally equivalent: preprocess, neighbor generation, score arrangement
(including the in-place mutation of the caller's scores list) and embed all
agree on all arguments.  The two class bodies are textually identical. -/
theorem c9_radio_dropdown_equivalent (choices : List String) (type : String)
    (x : String) (neighbors : List String) (scores : List (Option ℚ)) :
    Radio.preprocess choices type x = Dropdown.preprocess choices type x ∧
    Radio.get_interpretation_neighbors choices x =
      Dropdown.get_interpretation_neighbors choices x ∧
    Radio.get_interpretation_scores_call choices x neighbors scores =
      Dropdown.get_interpretation_scores_call choices x neighbors scores ∧
    Radio.embed choices type x = Dropdown.embed choices type x :=
  ⟨rfl, rfl, rfl, rfl⟩

/-- C10: immediately after construction — the base constructor invokes
`self.interpret()` with no arguments — every component already carries its
documented default interpretation hyperparameters: Textbox separator " " and
replacement None; Number steps 3, delta 1, delta type "percent"; Slider
steps 8; Image segments 16; Audio segments 8.  In particular every
hyperparameter field is set, so neighbor generation is callable on a fresh
instance. -/
theorem c10_construction_sets_default_hyperparameters :
    Textbox.construct.interpretation_separator = some " " ∧
    Textbox.construct.interpretation_replacement = some none ∧
    Number.construct.interpretation_steps = some 3 ∧
    Number.construct.interpretation_delta = some 1 ∧
    Number.construct.interpretation_delta_type = some "percent" ∧
    Slider.construct.interpretation_steps = some 8 ∧
    Image.construct.interpretation_segments = some 16 ∧
    Audio.construct.interpretation_segments = some 8 :=
  ⟨rfl, rfl, rfl, rfl, rfl, rfl, rfl, rfl⟩

/-- Indexing lemma for mapped zips: position `i` of `(l₁.zip l₂).map f` is
`f` applied to the entries of `l₁` and `l₂` at `i`, for `i` in range. -/
theorem zip_map_getD {α β γ : Type} (f : α × β → γ) (l₁ : List α) (l₂ : List β)
    (i : ℕ) (d : γ) (d₁ : α) (d₂ : β) (h₁ : i < l₁.length) (h₂ : i < l₂.length) :
    ((l₁.zip l₂).map f).getD i d = f (l₁.getD i d₁, l₂.getD i d₂) := by
  induction l₁ generalizing l₂ i with
  | nil => simp at h₁
  | cons a t ih =>
    cases l₂ with
    | nil => simp at h₂
    | cons b t₂ =>
      cases i with
      | zero => rfl
      | succ n =>
        simp only [List.zip_cons_cons, List.map_cons, List.getD_cons_succ]
        exact ih t₂ n (by simpa using h₁) (by simpa using h₂)

/-- C1 counterexample: Radio with choices ["a", "b"], selected input "a" and
caller scores list [1].  After `get_interpretation_scores` returns, the
caller's list (second component of the embedded call) is [None, 1], not the
unchanged [1]: the null entry for the originally selected choice has been
inserted into the caller's list in place. -/
theorem c1_counterexample :
    Radio.get_interpretation_scores_call ["a", "b"] "a" ["b"] [some 1] =
      Except.ok ([none, some 1], [none, some 1]) ∧
    ([none, some 1] : List (Option ℚ)) ≠ [some 1] := by
  exact ⟨rfl, by decide⟩

/-- C1 amended: for every Radio or Dropdown whose input `x` is among the
declared choices (at index `i`), `get_interpretation_scores` mutates the
caller-supplied scores list in place: after the call the caller's list — and
the returned list, the very same object — equals the original with a null
inserted at index `i`; in particular it is one entry longer and therefore
changed. -/
theorem c1_scores_mutate_in_place (choices : List String) (x : String)
    (neighbors : List String) (scores : List (Option ℚ)) (i : ℕ)
    (h : choices.indexOf? x = some i) :
    Radio.get_interpretation_scores_call choices x neighbors scores =
      Except.ok (pyInsert i none scores, pyInsert i none scores) ∧
    Dropdown.get_interpretation_scores_call choices x neighbors scores =
      Except.ok (pyInsert i none scores, pyInsert i none scores) ∧
    (pyInsert i none scores).length = scores.length + 1 ∧
    pyInsert i none scores ≠ scores := by
  refine ⟨?_, ?_, pyInsert_length i none scores, pyInsert_ne i none scores⟩ <;>
    simp [Radio.get_interpretation_scores_call,
      Dropdown.get_interpretation_scores_call, h]

/-- C1 witness: the amended statement instantiated at Radio/Dropdown with
choices ["a", "b"], input "a" and caller scores [1, 2]. -/
theorem c1_scores_mutate_in_place_witness :
    (["a", "b"] : List String).indexOf? "a" = some 0 ∧
    Radio.get_interpretation_scores_call ["a", "b"] "a" ["b"] [some 1, some 2] =
      Except.ok (pyInsert 0 none [some 1, some 2], pyInsert 0 none [some 1, some 2]) ∧
    Dropdown.get_interpretation_scores_call ["a", "b"] "a" ["b"] [some 1, some 2] =
      Except.ok (pyInsert 0 none [some 1, some 2], pyInsert 0 none [some 1, some 2]) ∧
    (pyInsert 0 none ([some 1, some 2] : List (Option ℚ))).length = 3 ∧
    pyInsert 0 none ([some 1, some 2] : List (Option ℚ)) ≠ [some 1, some 2] := by
  have h := c1_scores_mutate_in_place ["a", "b"] "a" ["b"] [some 1, some 2] 0 (by decide)
  exact ⟨by decide, h.1, h.2.1, h.2.2.1, h.2.2.2⟩

/-- C3 counterexample: CheckboxGroup with choices ["a"] and selection ["a"],
one neighbor score 1.  The code returns the pair (1, None) — score first,
null second — while the claimed arrangement (score_if_selected,
score_if_unselected) with the membership slot null predicts (None, 1). -/
theorem c3_counterexample :
    CheckboxGroup.get_interpretation_scores ["a"] ["a"] [[]] [1] = [(some 1, none)] ∧
    CheckboxGroup.claimed_scores ["a"] ["a"] [1] = [(none, some 1)] ∧
    ([(some 1, none)] : List (Option ℚ × Option ℚ)) ≠ [(none, some 1)] := by
  exact ⟨rfl, rfl, by decide⟩

/-- C3 amended: for every CheckboxGroup with declared choices and input
selection `x`, `get_interpretation_scores` returns one pair per declared
choice, in declaration order, of the form (score_if_unselected,
score_if_selected): the slot matching the choice's actual membership in `x`
is null and the other slot holds that choice's neighbor score — a selected
choice yields (score, null) and an unselected one yields (null, score). -/
theorem c3_scores_per_choice (choices : List String) (x : List String)
    (neighbors : List (List String)) (scores : List ℚ) (i : ℕ)
    (hlen : scores.length = choices.length) (hi : i < choices.length) :
    (CheckboxGroup.get_interpretation_scores choices x neighbors scores).length =
      choices.length ∧
    (CheckboxGroup.get_interpretation_scores choices x neighbors scores).getD i
        (none, none) =
      (if choices.getD i "" ∈ x then (some (scores.getD i 0), none)
       else (none, some (scores.getD i 0))) := by
  constructor
  · simp [CheckboxGroup.get_interpretation_scores, hlen]
  · rw [CheckboxGroup.get_interpretation_scores,
      zip_map_getD _ choices scores i _ "" 0 hi (hlen ▸ hi)]

/-- C3 witness: the amended statement instantiated at choices ["a", "b"],
selection ["b"], scores [1, 2], index 0 (an unselected choice: the pair is
(null, score)). -/
theorem c3_scores_per_choice_witness :
    ([(1 : ℚ), 2] : List ℚ).length = (["a", "b"] : List String).length ∧
    (0 : ℕ) < (["a", "b"] : List String).length ∧
    (CheckboxGroup.get_interpretation_scores ["a", "b"] ["b"] [] [1, 2]).length = 2 ∧
    (CheckboxGroup.get_interpretation_scores ["a", "b"] ["b"] [] [1, 2]).getD 0
        (none, none) = (none, some 1) := by
  have h := c3_scores_per_choice ["a", "b"] ["b"] [] [1, 2] 0 (by decide) (by decide)
  refine ⟨by decide, by decide, h.1, ?_⟩
  rw [h.2]
  decide

/-- Indexing lemma for zips: position `i` of `l₁.zip l₂` pairs the entries
of `l₁` and `l₂` at `i`, for `i` in range of both. -/
theorem zip_getD {α β : Type} (l₁ : List α) (l₂ : List β) (i : ℕ)
    (d₁ : α) (d₂ : β) (h₁ : i < l₁.length) (h₂ : i < l₂.length) :
    (l₁.zip l₂).getD i (d₁, d₂) = (l₁.getD i d₁, l₂.getD i d₂) := by
  simpa using zip_map_getD (fun p => p) l₁ l₂ i (d₁, d₂) d₁ d₂ h₁ h₂

/-- Length of the token/separator interleaving emitted by
`Textbox.get_interpretation_scores`: two entries per zipped pair. -/
theorem interleave_length (sep : String) (l : List (String × ℚ)) :
    (l.flatMap (fun p => [(p.1, p.2), (sep, 0)])).length = 2 * l.length := by
  induction l with
  | nil => rfl
  | cons a t ih =>
    rw [List.flatMap_cons, List.length_append, ih]
    simp only [List.length_cons, List.length_nil]
    omega

/-- Indexing the token/separator interleaving: entry `2*i` is pair `i` of
the underlying list, entry `2*i + 1` is the separator with score 0. -/
theorem interleave_getD (sep : String) (l : List (String × ℚ)) (i : ℕ)
    (hi : i < l.length) :
    (l.flatMap (fun p => [(p.1, p.2), (sep, 0)])).getD (2 * i) ("", 0) =
      l.getD i ("", 0) ∧
    (l.flatMap (fun p => [(p.1, p.2), (sep, 0)])).getD (2 * i + 1) ("", 0) =
      (sep, 0) := by
  induction l generalizing i with
  | nil => simp at hi
  | cons a t ih =>
    cases i with
    | zero => exact ⟨rfl, rfl⟩
    | succ n =>
      have ht : n < t.length := by simpa using hi
      constructor
      · rw [show 2 * (n + 1) = (2 * n + 1) + 1 from by omega]
        simpa [List.flatMap_cons] using (ih n ht).1
      · rw [show 2 * (n + 1) + 1 = ((2 * n + 1) + 1) + 1 from by omega]
        simpa [List.flatMap_cons] using (ih n ht).2

/-- C5: for every text input `x` and non-empty separator, the Textbox
neighbor list has exactly one entry per token of `x.split(separator)`; and
with one score per token, `get_interpretation_scores` returns `2 * tokens`
entries, alternating each token paired with its score (even positions) and
the separator paired with score 0 (odd positions). -/
theorem c5_textbox_token_interleaving (separator : String)
    (replacement : Option String) (x : String) (scores : List ℚ) (i : ℕ)
    (hsep : separator ≠ "")
    (hlen : scores.length = (pySplit x separator).length)
    (hi : i < (pySplit x separator).length) :
    (Textbox.get_interpretation_neighbors separator replacement x).1.length =
      (pySplit x separator).length ∧
    (Textbox.get_interpretation_scores separator x
        (Textbox.get_interpretation_neighbors separator replacement x).1
        scores (pySplit x separator)).length =
      2 * (pySplit x separator).length ∧
    (Textbox.get_interpretation_scores separator x
        (Textbox.get_interpretation_neighbors separator replacement x).1
        scores (pySplit x separator)).getD (2 * i) ("", 0) =
      ((pySplit x separator).getD i "", scores.getD i 0) ∧
    (Textbox.get_interpretation_scores separator x
        (Textbox.get_interpretation_neighbors separator replacement x).1
        scores (pySplit x separator)).getD (2 * i + 1) ("", 0) =
      (separator, 0) := by
  have hz : i < ((pySplit x separator).zip scores).length := by
    simp only [List.length_zip, hlen, min_self]
    exact hi
  have hfl := interleave_getD separator ((pySplit x separator).zip scores) i hz
  have hzd := zip_getD (pySplit x separator) scores i "" 0 hi (hlen ▸ hi)
  refine ⟨?_, ?_, ?_, ?_⟩
  · simp [Textbox.get_interpretation_neighbors]
  · rw [Textbox.get_interpretation_scores,
      interleave_length separator ((pySplit x separator).zip scores)]
    simp [List.length_zip, hlen]
  · rw [Textbox.get_interpretation_scores, hfl.1, hzd]
  · rw [Textbox.get_interpretation_scores, hfl.2]

/-- C5 witness: separator " ", input "a b" (two tokens), scores [1, 2],
index 0. -/
theorem c5_textbox_token_interleaving_witness :
    (" " : String) ≠ "" ∧
    ([(1 : ℚ), 2] : List ℚ).length = (pySplit "a b" " ").length ∧
    (0 : ℕ) < (pySplit "a b" " ").length ∧
    (Textbox.get_interpretation_neighbors " " none "a b").1.length =
      (pySplit "a b" " ").length ∧
    (Textbox.get_interpretation_scores " " "a b"
        (Textbox.get_interpretation_neighbors " " none "a b").1
        [1, 2] (pySplit "a b" " ")).length = 2 * (pySplit "a b" " ").length ∧
    (Textbox.get_interpretation_scores " " "a b"
        (Textbox.get_interpretation_neighbors " " none "a b").1
        [1, 2] (pySplit "a b" " ")).getD 0 ("", 0) =
      ((pySplit "a b" " ").getD 0 "", ([(1 : ℚ), 2] : List ℚ).getD 0 0) ∧
    (Textbox.get_interpretation_scores " " "a b"
        (Textbox.get_interpretation_neighbors " " none "a b").1
        [1, 2] (pySplit "a b" " ")).getD 1 ("", 0) = (" ", 0) := by
  have h := c5_textbox_token_interleaving " " none "a b" [1, 2] 0
    (by decide) (by decide) (by decide)
  exact ⟨by decide, by decide, by decide, h.1, h.2.1, h.2.2.1, by simpa using h.2.2.2⟩

/-- Fold-of-max bound: folding `max` from a non-positive seed over
non-positive entries stays non-positive. -/
theorem foldl_max_nonpos (l : List ℚ) (init : ℚ) (h0 : init ≤ 0)
    (h : ∀ v ∈ l, v ≤ 0) : l.foldl max init ≤ 0 := by
  induction l generalizing init with
  | nil => exact h0
  | cons a t ih =>
    exact ih (max init a) (max_le h0 (h a (List.mem_cons_self a t)))
      (fun v hv => h v (List.mem_cons_of_mem a hv))

/-- The embedded `np.max` of a list of non-positive entries is
non-positive. -/
theorem npMax_nonpos (l : List ℚ) (h : ∀ v ∈ l, v ≤ 0) : npMax l ≤ 0 := by
  cases l with
  | nil => simp [npMax]
  | cons a t =>
    exact foldl_max_nonpos (a :: t) a (h a (List.mem_cons_self a t)) h

/-- One accumulation step keeps every grid entry non-positive when the
starting grid is entrywise non-positive and the added score is. -/
theorem gridAddScaled_nonpos (g : List (List ℚ)) (s : ℚ)
    (m : List (List Bool)) (hg : ∀ row ∈ g, ∀ v ∈ row, v ≤ 0) (hs : s ≤ 0) :
    ∀ row ∈ gridAddScaled g s m, ∀ v ∈ row, v ≤ 0 := by
  intro row hrow v hv
  simp only [gridAddScaled, List.mem_map] at hrow
  obtain ⟨p, hp, rfl⟩ := hrow
  simp only [List.mem_map] at hv
  obtain ⟨q, hq, rfl⟩ := hv
  have hq1 : q.1 ∈ p.1 := (List.of_mem_zip hq).1
  have hp1 : p.1 ∈ g := (List.of_mem_zip hp).1
  refine add_nonpos (hg p.1 hp1 q.1 hq1) ?_
  split
  · exact hs
  · exact le_refl 0

/-- One accumulation step preserves the grid's row count and row widths
when the mask has the same shape. -/
theorem gridAddScaled_dims (g : List (List ℚ)) (s : ℚ) (m : List (List Bool))
    (h w : ℕ) (hg : g.length = h ∧ ∀ row ∈ g, row.length = w)
    (hm : m.length = h ∧ ∀ r ∈ m, r.length = w) :
    (gridAddScaled g s m).length = h ∧
      ∀ row ∈ gridAddScaled g s m, row.length = w := by
  constructor
  · simp [gridAddScaled, List.length_zip, hg.1, hm.1]
  · intro row hrow
    simp only [gridAddScaled, List.mem_map] at hrow
    obtain ⟨p, hp, rfl⟩ := hrow
    have hp1 := (List.of_mem_zip hp).1
    have hp2 := (List.of_mem_zip hp).2
    simp [List.length_zip, hg.2 p.1 hp1, hm.2 p.2 hp2]

/-- Invariant of the accumulation fold: starting from an entrywise
non-positive grid of shape `h` by `w` and folding pairs whose scores are
non-positive and whose masks have shape `h` by `w`, the result is an
entrywise non-positive grid of shape `h` by `w`. -/
theorem foldl_gridAddScaled_invariant (l : List (ℚ × List (List Bool)))
    (g : List (List ℚ)) (h w : ℕ)
    (hg : (g.length = h ∧ ∀ row ∈ g, row.length = w) ∧
      ∀ row ∈ g, ∀ v ∈ row, v ≤ 0)
    (hl : ∀ p ∈ l, p.1 ≤ 0 ∧ p.2.length = h ∧ ∀ r ∈ p.2, r.length = w) :
    ((l.foldl (fun g p => gridAddScaled g p.1 p.2) g).length = h ∧
      ∀ row ∈ l.foldl (fun g p => gridAddScaled g p.1 p.2) g, row.length = w) ∧
    ∀ row ∈ l.foldl (fun g p => gridAddScaled g p.1 p.2) g, ∀ v ∈ row, v ≤ 0 := by
  induction l generalizing g with
  | nil => exact hg
  | cons a t ih =>
    refine ih (gridAddScaled g a.1 a.2) ⟨?_, ?_⟩ ?_
    · exact gridAddScaled_dims g a.1 a.2 h w hg.1
        ⟨(hl a (List.mem_cons_self a t)).2.1, (hl a (List.mem_cons_self a t)).2.2⟩
    · exact gridAddScaled_nonpos g a.1 a.2 hg.2 (hl a (List.mem_cons_self a t)).1
    · exact fun p hp => hl p (List.mem_cons_of_mem a hp)

/-- Shape of the accumulation fold without any score hypothesis: the grid
keeps shape `h` by `w` when every mask has that shape. -/
theorem foldl_gridAddScaled_dims (l : List (ℚ × List (List Bool)))
    (g : List (List ℚ)) (h w : ℕ)
    (hg : g.length = h ∧ ∀ row ∈ g, row.length = w)
    (hl : ∀ p ∈ l, p.2.length = h ∧ ∀ r ∈ p.2, r.length = w) :
    (l.foldl (fun g p => gridAddScaled g p.1 p.2) g).length = h ∧
      ∀ row ∈ l.foldl (fun g p => gridAddScaled g p.1 p.2) g, row.length = w := by
  induction l generalizing g with
  | nil => exact hg
  | cons a t ih =>
    refine ih (gridAddScaled g a.1 a.2) ?_ (fun p hp => hl p (List.mem_cons_of_mem a hp))
    exact gridAddScaled_dims g a.1 a.2 h w hg (hl a (List.mem_cons_self a t))

/-- The zero grid has shape `h` by `w` and non-positive entries. -/
theorem gridZero_props (h w : ℕ) :
    ((gridZero h w).length = h ∧ ∀ row ∈ gridZero h w, row.length = w) ∧
    ∀ row ∈ gridZero h w, ∀ v ∈ row, v ≤ 0 := by
  refine ⟨⟨by simp [gridZero], ?_⟩, ?_⟩
  · intro row hrow
    rw [List.eq_of_mem_replicate hrow]
    simp
  · intro row hrow v hv
    rw [List.eq_of_mem_replicate hrow] at hv
    rw [List.eq_of_mem_replicate hv]

/-- C4: Image `get_interpretation_scores` accumulates `score * mask` into a
grid of the decoded image's height by width (shape conjunct, under the numpy
broadcast requirement that each mask has that shape); the result is the
min-max rescaled grid exactly when the accumulated grid's maximum exceeds
zero, and the accumulated grid unchanged otherwise; in particular, whenever
all raw scores are at most 0, the accumulated grid is returned unchanged. -/
theorem c4_image_accumulate_rescale (scores : List ℚ)
    (masks : List (List (List Bool))) (h w : ℕ)
    (hmask : ∀ m ∈ masks, m.length = h ∧ ∀ r ∈ m, r.length = w) :
    ((Image.accumulate scores masks h w).length = h ∧
      ∀ row ∈ Image.accumulate scores masks h w, row.length = w) ∧
    (Image.get_interpretation_scores scores masks h w =
      if 0 < npMax (Image.accumulate scores masks h w).flatten
      then rescaleGrid (Image.accumulate scores masks h w)
      else Image.accumulate scores masks h w) ∧
    ((∀ s ∈ scores, s ≤ 0) →
      Image.get_interpretation_scores scores masks h w =
        Image.accumulate scores masks h w) := by
  refine ⟨?_, rfl, ?_⟩
  · exact foldl_gridAddScaled_dims (scores.zip masks) (gridZero h w) h w
      (gridZero_props h w).1
      (fun p hp => hmask p.2 (List.of_mem_zip hp).2)
  · intro hneg
    have hinv := foldl_gridAddScaled_invariant (scores.zip masks) (gridZero h w) h w
      (gridZero_props h w)
      (fun p hp => ⟨hneg p.1 (List.of_mem_zip hp).1,
        (hmask p.2 (List.of_mem_zip hp).2).1, (hmask p.2 (List.of_mem_zip hp).2).2⟩)
    have hflat : ∀ v ∈ (Image.accumulate scores masks h w).flatten, v ≤ 0 := by
      intro v hv
      rw [List.mem_flatten] at hv
      obtain ⟨row, hrow, hvrow⟩ := hv
      exact hinv.2 row hrow v hvrow
    have hmax : ¬ 0 < npMax (Image.accumulate scores masks h w).flatten :=
      not_lt.mpr (npMax_nonpos _ hflat)
    rw [Image.get_interpretation_scores, if_neg hmax]

/-- C4 witness: one segment mask covering a 1 by 1 image with score -1: the
maximum of the accumulated grid [[-1]] is not positive, so the grid is
returned unscaled. -/
theorem c4_image_accumulate_rescale_witness :
    ((-1 : ℚ) ≤ 0) ∧
    (Image.accumulate [-1] [[[true]]] 1 1).length = 1 ∧
    Image.get_interpretation_scores [-1] [[[true]]] 1 1 =
      Image.accumulate [-1] [[[true]]] 1 1 ∧
    Image.accumulate [-1] [[[true]]] 1 1 = [[-1]] := by
  have hmask : ∀ m ∈ [[[true]]], List.length m = 1 ∧ ∀ r ∈ m, List.length r = 1 := by
    decide
  have h := c4_image_accumulate_rescale [-1] [[[true]]] 1 1 hmask
  refine ⟨by norm_num, h.1.1, h.2.2 ?_, ?_⟩
  · intro s hs
    simp only [List.mem_singleton] at hs
    rw [hs]
    norm_num
  · norm_num [Image.accumulate, gridAddScaled, gridZero]
